import Mathlib

/-!
Shallow embedding of the SBOM web application (src/sbom-web/app.py):
the CycloneDX XML interpreter, the upload dispatcher, and the SPDX
view-model adapter. XML documents, as produced by the standard library
ElementTree parser, are modelled as a tree of elements carrying a tag,
an attribute list, an optional text node and a list of children. The
byte-level XML parser itself is an external collaborator; functions that
consume its output take an `Except String Element` (parse failure
diagnostic, or the root element of a well-formed document).

Python truthiness on optional strings (None and the empty string are
both falsy) is modelled explicitly wherever the source relies on it.
-/

/-- An XML element as seen through `xml.etree.ElementTree`: a tag (which
may carry a `{namespace}` qualifier), an attribute mapping, an optional
text node (ElementTree reports `None` for a childless empty element) and
the list of direct children in document order. -/
inductive Element where
  | mk : String → List (String × String) → Option String → List Element → Element

def Element.tag : Element → String
  | .mk t _ _ _ => t

def Element.attrib : Element → List (String × String)
  | .mk _ a _ _ => a

def Element.text : Element → Option String
  | .mk _ _ x _ => x

def Element.children : Element → List Element
  | .mk _ _ _ c => c

/-- Characters removed by Python `str.strip()` (the ASCII whitespace
set; the inputs at hand are ASCII). -/
def is_space (c : Char) : Bool :=
  c = ' ' || c = '\t' || c = '\n' || c = '\r' || c = '\x0b' || c = '\x0c'

/-- Python `s.strip()`: drop leading and trailing whitespace. -/
def py_strip (s : String) : String :=
  String.mk (((s.toList.dropWhile is_space).reverse.dropWhile is_space).reverse)

/-- Everything after the first occurrence of the character, if any. -/
def after_first (sep : Char) : List Char → Option (List Char)
  | [] => none
  | c :: cs => if c = sep then some cs else after_first sep cs

/-- `_strip_ns`: turn `{namespace}tag` into `tag`; a tag with no `}` is
returned unchanged (Python: `tag.split("}", 1)[1]`). -/
def strip_ns (tag : String) : String :=
  match after_first '}' tag.toList with
  | some rest => String.mk rest
  | none => tag

/-- `find_child`: first direct child whose local name matches, in
document order. -/
def find_child (p : Element) (name : String) : Option Element :=
  p.children.find? (fun ch => strip_ns ch.tag == name)

/-- `find_children`: all direct children whose local name matches, in
document order. -/
def find_children (p : Element) (name : String) : List Element :=
  p.children.filter (fun ch => strip_ns ch.tag == name)

/-- `attrs.get(k)` on an ElementTree attribute mapping. -/
def attrib_get (attrs : List (String × String)) (k : String) : Option String :=
  (attrs.find? (fun kv => kv.fst == k)).map (fun kv => kv.snd)

/-- The recurring extraction idiom
`el.text.strip() if el is not None and el.text else None`:
absent element or absent/empty (falsy) text gives `none`, otherwise the
text with surrounding whitespace trimmed. -/
def text_or_none (e : Option Element) : Option String :=
  match e with
  | some el =>
    match el.text with
    | some t => if t = "" then none else some (py_strip t)
    | none => none
  | none => none

/-- Python `a or b` restricted to optional strings: `a` unless it is
falsy (`None` or the empty string), else `b`. -/
def py_or (a b : Option String) : Option String :=
  match a with
  | some s => if s = "" then b else some s
  | none => b

/-- Python truthiness filter on an optional string: keep only a
non-`None`, non-empty value. -/
def truthy_opt (o : Option String) : Option String :=
  match o with
  | some s => if s = "" then none else some s
  | none => none

structure Tool where
  vendor : Option String
  name : Option String
  version : Option String
deriving DecidableEq

/-- The metadata `component` record (the source builds it without a
`licenses` key, unlike top-level components). -/
structure MdComponent where
  type : Option String
  bomRef : Option String
  name : Option String
  version : Option String
  purl : Option String
deriving DecidableEq

structure Component where
  type : Option String
  bomRef : Option String
  name : Option String
  version : Option String
  purl : Option String
  licenses : List String
deriving DecidableEq

structure Metadata where
  timestamp : Option String
  tools : List Tool
  component : Option MdComponent
deriving DecidableEq

structure DependencyEdge where
  ref : Option String
  dependsOn : List String
deriving DecidableEq

/-- The CycloneDX view model. `metadata` is `none` when the source code
leaves the initial empty mapping in place (no `<metadata>` element). -/
structure BomInfo where
  serialNumber : Option String
  version : Option String
  metadata : Option Metadata
  components : List Component
  dependencies : List DependencyEdge
deriving DecidableEq

instance {ε α : Type} [DecidableEq ε] [DecidableEq α] :
    DecidableEq (Except ε α) := fun x y =>
  match x, y with
  | .error e, .error f =>
    if h : e = f then isTrue (h ▸ rfl)
    else isFalse (fun hh => h (Except.error.inj hh))
  | .ok a, .ok b =>
    if h : a = b then isTrue (h ▸ rfl)
    else isFalse (fun hh => h (Except.ok.inj hh))
  | .error _, .ok _ => isFalse (fun hh => Except.noConfusion hh)
  | .ok _, .error _ => isFalse (fun hh => Except.noConfusion hh)

/-- The two failures `parse_cyclonedx_xml` can raise: malformed XML
(carrying the underlying syntax diagnostic) and a well-formed document
whose root is not `<bom>`. -/
inductive CdxError where
  | parseError (msg : String)
  | formatMismatch
deriving DecidableEq

def extract_tool (tool : Element) : Tool :=
  { vendor := text_or_none (find_child tool "vendor"),
    name := text_or_none (find_child tool "name"),
    version := text_or_none (find_child tool "version") }

def extract_md_component (c : Element) : MdComponent :=
  { type := attrib_get c.attrib "type",
    bomRef := attrib_get c.attrib "bom-ref",
    name := text_or_none (find_child c "name"),
    version := text_or_none (find_child c "version"),
    purl := text_or_none (find_child c "purl") }

def extract_metadata (md : Element) : Metadata :=
  { timestamp := text_or_none (find_child md "timestamp"),
    tools :=
      match find_child md "tools" with
      | some tools => (find_children tools "tool").map extract_tool
      | none => [],
    component := (find_child md "component").map extract_md_component }

/-- One `<license>` entry: `(id-text) or (name-text) or ("(license
text)" if a text child is present else None)`, with Python `or`. -/
def license_of (licwrap : Element) : Option String :=
  py_or
    (py_or (text_or_none (find_child licwrap "id"))
           (text_or_none (find_child licwrap "name")))
    (if (find_child licwrap "text").isSome then some "(license text)" else none)

def extract_component (c : Element) : Component :=
  { type := attrib_get c.attrib "type",
    bomRef := attrib_get c.attrib "bom-ref",
    name := text_or_none (find_child c "name"),
    version := text_or_none (find_child c "version"),
    purl := text_or_none (find_child c "purl"),
    licenses :=
      match find_child c "licenses" with
      | some ls => (find_children ls "license").filterMap
          (fun w => truthy_opt (license_of w))
      | none => [] }

/-- `[d.attrib.get("ref") for d in find_children(dep, "dependency") if
d.attrib.get("ref")]`: the truthiness guard drops an absent and an
empty `ref` attribute alike. -/
def depends_on_of (dep : Element) : List String :=
  (find_children dep "dependency").filterMap
    (fun d => truthy_opt (attrib_get d.attrib "ref"))

def extract_dependency (dep : Element) : DependencyEdge :=
  { ref := attrib_get dep.attrib "ref", dependsOn := depends_on_of dep }

def extract_deps (deps : Element) : List DependencyEdge :=
  (find_children deps "dependency").map extract_dependency

/-- `parse_cyclonedx_xml`, as a function of the outcome of the external
byte-level XML parse: a parse failure is re-raised as `parseError`; a
well-formed document whose root local name is not `bom` is rejected with
`formatMismatch`; otherwise the view model is assembled, defaulting
every absent optional part. -/
def parse_cyclonedx_xml (xml : Except String Element) :
    Except CdxError BomInfo :=
  match xml with
  | .error msg => .error (.parseError msg)
  | .ok root =>
    if strip_ns root.tag = "bom" then
      .ok
        { serialNumber := attrib_get root.attrib "serialNumber",
          version := attrib_get root.attrib "version",
          metadata := (find_child root "metadata").map extract_metadata,
          components :=
            match find_child root "components" with
            | some cs => (find_children cs "component").map extract_component
            | none => [],
          dependencies :=
            match find_child root "dependencies" with
            | some ds => extract_deps ds
            | none => [] }
    else .error .formatMismatch

/-- The effective tool list of a view model: the tools of the metadata
record when one was built, else none at all (the empty mapping case). -/
def bom_tools (b : BomInfo) : List Tool :=
  match b.metadata with
  | some m => m.tools
  | none => []

/-! SPDX view-model adapter (`spdx_doc_to_viewmodel`). The structured
document is what the external spdx-tools parser returns; object-valued
fields that the source renders with `str(...)` are modelled by their
string rendering, and a field the source guards with `getattr(..., None)`
by an `Option`. A Python object reference held in an `Option` is truthy
exactly when it is present. -/

/-- The `reference_type` object carried by an external package
reference; a present object is always truthy. -/
structure RefKind where
  category : String
deriving DecidableEq

structure ExternalRef where
  locator : String
  reference_type : Option RefKind
deriving DecidableEq

structure SpdxPackageSrc where
  spdx_id : String
  name : String
  version : Option String
  supplier : Option String
  download_location : Option String
  license_declared : Option String
  license_concluded : Option String
  external_references : List ExternalRef
deriving DecidableEq

structure CreationInfo where
  document_name : String
  created : Option String
  creators : List String
deriving DecidableEq

structure SpdxDocument where
  spdx_version : String
  data_license : String
  document_namespace : String
  creation_info : Option CreationInfo
  packages : List SpdxPackageSrc
deriving DecidableEq

structure SpdxPackageVM where
  spdx_id : String
  name : String
  version : Option String
  supplier : Option String
  download_location : Option String
  license_declared : Option String
  license_concluded : Option String
  purl : Option String
deriving DecidableEq

structure SpdxViewModel where
  spdx_version : String
  data_license : String
  document_namespace : String
  document_name : Option String
  created : Option String
  creators : List String
  packages : List SpdxPackageVM
deriving DecidableEq

/-- One package of `spdx_doc_to_viewmodel`: `purl` comes from
`p.external_references[0].locator` only when the list is non-empty and
`getattr(p.external_references[0], "reference_type", None)` is truthy. -/
def spdx_package_to_vm (p : SpdxPackageSrc) : SpdxPackageVM :=
  { spdx_id := p.spdx_id,
    name := p.name,
    version := p.version,
    supplier := p.supplier,
    download_location := p.download_location,
    license_declared := p.license_declared,
    license_concluded := p.license_concluded,
    purl :=
      match p.external_references with
      | [] => none
      | r :: _ =>
        match r.reference_type with
        | some _ => some r.locator
        | none => none }

def spdx_doc_to_viewmodel (doc : SpdxDocument) : SpdxViewModel :=
  { spdx_version := doc.spdx_version,
    data_license := doc.data_license,
    document_namespace := doc.document_namespace,
    document_name := doc.creation_info.map (fun ci => ci.document_name),
    created :=
      match doc.creation_info with
      | some ci => ci.created
      | none => none,
    creators :=
      match doc.creation_info with
      | some ci => ci.creators
      | none => [],
    packages := doc.packages.map spdx_package_to_vm }

/-! Upload dispatcher (`upload_sbom`). The transport layer and the
external SPDX parsing pipeline are collaborators: the handler is
modelled as a function of the received byte count, the outcome of the
byte-level XML parse of the content, and the outcome the SPDX path
would produce for this upload. -/

inductive UploadError where
  | payloadTooLarge
  | unrecognizedFormat (msg : String)
deriving DecidableEq

inductive RenderPage where
  | cyclonedxReport (sbom : BomInfo) (filename : String)
  | spdxReport (spdx : SpdxViewModel) (filename : String)
deriving DecidableEq

def MAX_UPLOAD_BYTES : Nat := 5 * 1024 * 1024

/-- `file.filename or "uploaded"`. -/
def normalize_filename (fn : String) : String :=
  if fn = "" then "uploaded" else fn

/-- `os.path.splitext(name)[1]`: the extension of the last path
component, where leading dots of the component never start one. -/
def splitext_ext (name : String) : String :=
  let base := (name.toList.reverse.takeWhile (fun c => c ≠ '/')).reverse
  let core := base.dropWhile (fun c => c = '.')
  if core.contains '.' then
    String.mk ('.' :: (core.reverse.takeWhile (fun c => c ≠ '.')).reverse)
  else ""

/-- `s.lower()` on the ASCII strings at hand. -/
def lower_str (s : String) : String :=
  String.mk (s.toList.map Char.toLower)

/-- The SPDX branch of the handler: render the SPDX report on success,
else surface the single combined unrecognized-format failure. -/
def spdx_path (filename : String) (spdxResult : Except String SpdxViewModel) :
    Except UploadError RenderPage :=
  match spdxResult with
  | .ok vm => .ok (.spdxReport vm filename)
  | .error e => .error (.unrecognizedFormat e)

/-- `upload_sbom`: size guard after full receipt, then the CycloneDX
attempt for a (case-insensitive) `.xml` extension with fallback to the
SPDX path on either CycloneDX failure, and the SPDX path directly for
every other extension. -/
def upload_sbom (filename0 : String) (contentLen : Nat)
    (xml : Except String Element)
    (spdxResult : Except String SpdxViewModel) :
    Except UploadError RenderPage :=
  let filename := normalize_filename filename0
  if contentLen > MAX_UPLOAD_BYTES then
    .error .payloadTooLarge
  else
    let ext := lower_str (splitext_ext filename)
    if ext = ".xml" then
      match parse_cyclonedx_xml xml with
      | .ok bom => .ok (.cyclonedxReport bom filename)
      | .error _ => spdx_path filename spdxResult
    else
      spdx_path filename spdxResult

/-! Concrete documents used to instantiate the theorems below. -/

/-- The end-to-end scenario input from the specification. -/
def scenario_input : Element :=
  Element.mk "bom" [("serialNumber", "urn:uuid:1"), ("version", "1")] none
    [Element.mk "components" [] none
      [Element.mk "component" [("type", "library"), ("bom-ref", "c1")] none
        [Element.mk "name" [] (some "libx") [],
         Element.mk "version" [] (some "2.0") []]]]

/-- The view model the scenario input produces. -/
def scenario_output : BomInfo :=
  { serialNumber := some "urn:uuid:1", version := some "1",
    metadata := none,
    components := [{ type := some "library", bomRef := some "c1",
                     name := some "libx", version := some "2.0",
                     purl := none, licenses := [] }],
    dependencies := [] }

/-- A well-formed document whose root is not `<bom>`. -/
def non_bom_doc : Element :=
  Element.mk "{http://spdx.org/rdf/terms}SpdxDocument" [] none []

/-- A `<bom>` with a whitespace-only `<timestamp>` text node. -/
def ws_timestamp_doc : Element :=
  Element.mk "bom" [] none
    [Element.mk "metadata" [] none
      [Element.mk "timestamp" [] (some "  ") []]]

/-- A `<dependency ref="A">` whose only child carries `ref=""`. -/
def dep_with_empty_ref_child : Element :=
  Element.mk "dependency" [("ref", "A")] none
    [Element.mk "dependency" [("ref", "")] none []]

/-- A minimal SPDX view model for exercising the dispatcher. -/
def demo_spdx_vm : SpdxViewModel :=
  { spdx_version := "SPDX-2.3", data_license := "CC0-1.0",
    document_namespace := "https://example.test/doc", document_name := none,
    created := none, creators := [], packages := [] }

/-! Shared helper lemmas. -/

theorem py_or_of_truthy (s : String) (b : Option String) (h : s ≠ "") :
    py_or (some s) b = some s := by
  simp [py_or, h]

theorem py_or_of_falsy (a b : Option String)
    (h : a = none ∨ a = some "") : py_or a b = b := by
  rcases h with h | h <;> simp [py_or, h]

theorem upload_small_never_too_large (fn : String) (len : Nat)
    (xml : Except String Element) (spdx : Except String SpdxViewModel)
    (hlen : ¬ len > MAX_UPLOAD_BYTES) :
    upload_sbom fn len xml spdx ≠ Except.error UploadError.payloadTooLarge := by
  simp only [upload_sbom, if_neg hlen]
  split
  · split
    · simp
    · simp only [spdx_path]
      split <;> simp
  · simp only [spdx_path]
    split <;> simp

/-! Claim theorems. -/

/-- C1: a well-formed XML document whose root local name is not `bom`
(whatever its namespace) makes the CycloneDX interpreter fail with
`formatMismatch`, an error distinct from every `parseError`; and a
`parseError` arises only when the byte-level XML parse itself failed. -/
theorem nonbom_root_is_format_mismatch (t : Element)
    (hroot : strip_ns t.tag ≠ "bom") :
    parse_cyclonedx_xml (Except.ok t) = Except.error CdxError.formatMismatch
    ∧ (∀ m : String, CdxError.formatMismatch ≠ CdxError.parseError m)
    ∧ (∀ (r : Except String Element) (m : String),
        parse_cyclonedx_xml r = Except.error (CdxError.parseError m) →
        r = Except.error m) := by
  refine ⟨?_, ?_, ?_⟩
  · simp [parse_cyclonedx_xml, hroot]
  · intro m h
    exact CdxError.noConfusion h
  · intro r m h
    cases r with
    | error s =>
      simp [parse_cyclonedx_xml] at h
      rw [h]
    | ok t2 =>
      by_cases hb : strip_ns t2.tag = "bom"
      · simp [parse_cyclonedx_xml, hb] at h
      · simp [parse_cyclonedx_xml, hb] at h

/-- Witness for C1 at a concrete SPDX-style root element. -/
theorem nonbom_root_is_format_mismatch_witness :
    parse_cyclonedx_xml (Except.ok non_bom_doc) =
      Except.error CdxError.formatMismatch :=
  (nonbom_root_is_format_mismatch non_bom_doc (by decide)).1

/-- C2: the interpreter returns a view model for every well-formed
document whose root local name is `bom`, whatever optional parts are
missing; on the bare `<bom/>` every optional field comes out null or
empty. -/
theorem bom_root_never_raises (t : Element)
    (hroot : strip_ns t.tag = "bom") :
    (∃ b : BomInfo, parse_cyclonedx_xml (Except.ok t) = Except.ok b)
    ∧ parse_cyclonedx_xml (Except.ok (Element.mk "bom" [] none [])) =
        Except.ok { serialNumber := none, version := none, metadata := none,
                    components := [], dependencies := [] } := by
  constructor
  · simp only [parse_cyclonedx_xml]
    rw [if_pos hroot]
    exact ⟨_, rfl⟩
  · decide

/-- Witness for C2 at the bare `<bom/>` document. -/
theorem bom_root_never_raises_witness :
    ∃ b : BomInfo,
      parse_cyclonedx_xml (Except.ok (Element.mk "bom" [] none [])) =
        Except.ok b :=
  (bom_root_never_raises (Element.mk "bom" [] none []) (by decide)).1

/-- C9: the specification's end-to-end scenario input produces exactly
the expected serial number, version, single component, no dependency
edges and no tools. -/
theorem end_to_end_scenario :
    parse_cyclonedx_xml (Except.ok scenario_input) = Except.ok scenario_output
    ∧ scenario_output.dependencies = []
    ∧ bom_tools scenario_output = [] := by
  refine ⟨by decide, rfl, rfl⟩

/-- C3: license precedence. A usable `id` text (present, with
non-whitespace content — `text_or_none` trims, so usable means a
non-empty trimmed value) wins outright; otherwise a usable `name` text;
otherwise the fixed placeholder when a `text` child exists at all;
otherwise the entry resolves to nothing, and the component's license
list keeps only truthy resolved entries, so it is dropped, never kept
as null. -/
theorem license_precedence (lic : Element) :
    (∀ t : String, text_or_none (find_child lic "id") = some t → t ≠ "" →
        license_of lic = some t)
    ∧ ((text_or_none (find_child lic "id") = none ∨
        text_or_none (find_child lic "id") = some "") →
       ∀ t : String, text_or_none (find_child lic "name") = some t → t ≠ "" →
        license_of lic = some t)
    ∧ ((text_or_none (find_child lic "id") = none ∨
        text_or_none (find_child lic "id") = some "") →
       (text_or_none (find_child lic "name") = none ∨
        text_or_none (find_child lic "name") = some "") →
       (find_child lic "text").isSome = true →
       license_of lic = some "(license text)")
    ∧ ((text_or_none (find_child lic "id") = none ∨
        text_or_none (find_child lic "id") = some "") →
       (text_or_none (find_child lic "name") = none ∨
        text_or_none (find_child lic "name") = some "") →
       find_child lic "text" = none →
       license_of lic = none)
    ∧ (∀ (c ls : Element), find_child c "licenses" = some ls →
        (extract_component c).licenses =
          (find_children ls "license").filterMap
            (fun w => truthy_opt (license_of w))) := by
  refine ⟨?_, ?_, ?_, ?_, ?_⟩
  · intro t hid ht
    unfold license_of
    rw [hid, py_or_of_truthy t _ ht, py_or_of_truthy t _ ht]
  · intro hid t hname ht
    unfold license_of
    rw [py_or_of_falsy _ _ hid, hname, py_or_of_truthy t _ ht]
  · intro hid hname htext
    unfold license_of
    rw [py_or_of_falsy _ _ hid, py_or_of_falsy _ _ hname, if_pos htext]
  · intro hid hname htext
    unfold license_of
    rw [py_or_of_falsy _ _ hid, py_or_of_falsy _ _ hname, htext]
    rfl
  · intro c ls hls
    simp [extract_component, hls]

/-- Witness for C3: with both `id` and `name` populated, `id` wins. -/
theorem license_precedence_witness :
    license_of (Element.mk "license" [] none
      [Element.mk "id" [] (some "MIT") [],
       Element.mk "name" [] (some "MIT License") []]) = some "MIT" :=
  (license_precedence (Element.mk "license" [] none
      [Element.mk "id" [] (some "MIT") [],
       Element.mk "name" [] (some "MIT License") []])).1
    "MIT" (by decide) (by decide)

/-- C4 counterexample: a `<timestamp>` whose text is two spaces is
present but textually empty, yet the interpreter produces the empty
string for it, not null — the truthiness guard sees the raw text, the
trim happens afterwards. -/
theorem whitespace_only_text_yields_empty_string :
    parse_cyclonedx_xml (Except.ok ws_timestamp_doc) =
      Except.ok { serialNumber := none, version := none,
                  metadata := some { timestamp := some "", tools := [],
                                     component := none },
                  components := [], dependencies := [] }
    ∧ some "" ≠ (none : Option String) := ⟨by decide, by decide⟩

/-- C4 amended: extracted text fields are the element text trimmed of
surrounding whitespace; an element that is absent, or present with no
text node at all, yields null — but an element whose text is non-empty
whitespace yields the empty string (its trim), not null. The last part
ties the extraction idiom to the interpreter: the metadata timestamp of
a parsed `<bom>` is exactly `text_or_none` of the `<timestamp>`
child. -/
theorem text_extraction_normalization (el : Element) (t : String) :
    (el.text = some t → t ≠ "" → text_or_none (some el) = some (py_strip t))
    ∧ (el.text = none → text_or_none (some el) = none)
    ∧ text_or_none (none : Option Element) = none
    ∧ (∀ root md : Element, strip_ns root.tag = "bom" →
        find_child root "metadata" = some md →
        ∃ b : BomInfo, parse_cyclonedx_xml (Except.ok root) = Except.ok b ∧
          b.metadata = some (extract_metadata md) ∧
          (extract_metadata md).timestamp =
            text_or_none (find_child md "timestamp")) := by
  refine ⟨?_, ?_, rfl, ?_⟩
  · intro h ht
    simp [text_or_none, h, ht]
  · intro h
    simp [text_or_none, h]
  · intro root md hroot hmd
    refine ⟨{ serialNumber := attrib_get root.attrib "serialNumber",
              version := attrib_get root.attrib "version",
              metadata := (find_child root "metadata").map extract_metadata,
              components :=
                match find_child root "components" with
                | some cs => (find_children cs "component").map extract_component
                | none => [],
              dependencies :=
                match find_child root "dependencies" with
                | some ds => extract_deps ds
                | none => [] }, ?_, ?_, rfl⟩
    · simp only [parse_cyclonedx_xml]
      rw [if_pos hroot]
    · simp [hmd]

/-- Witness for C4 at a whitespace-padded text node. -/
theorem text_extraction_normalization_witness :
    text_or_none (some (Element.mk "name" [] (some " libx ") [])) =
      some "libx" := by
  have h := (text_extraction_normalization
    (Element.mk "name" [] (some " libx ") []) " libx ").1 rfl (by decide)
  rw [h]
  decide

/-- C5 counterexample: the nested `<dependency ref=""/>` carries a
`ref` attribute, but its value is not collected — the source's
truthiness guard drops an empty attribute value just like an absent
one, so the claim's "every nested child that has one" fails. -/
theorem empty_ref_attribute_is_skipped :
    attrib_get (Element.mk "dependency" [("ref", "")] none []).attrib "ref" =
      some ""
    ∧ extract_dependency dep_with_empty_ref_child =
        { ref := some "A", dependsOn := [] }
    ∧ "" ∉ (extract_dependency dep_with_empty_ref_child).dependsOn :=
  ⟨by decide, by decide, by decide⟩

/-- C5 amended: `dependsOn` collects, in document order, the `ref`
attribute of every nested `<dependency>` child whose `ref` attribute is
present and non-empty; children with an absent or empty `ref` attribute
are silently skipped. The edge pairs that list with the outer `ref`
attribute, and the specification's example behaves as stated. -/
theorem depends_on_collects_nonempty_refs (dep : Element) :
    (∀ d : Element, d ∈ find_children dep "dependency" →
      ∀ s : String, attrib_get d.attrib "ref" = some s → s ≠ "" →
        s ∈ depends_on_of dep)
    ∧ (∀ s : String, s ∈ depends_on_of dep →
        s ≠ "" ∧ ∃ d : Element, d ∈ find_children dep "dependency" ∧
          attrib_get d.attrib "ref" = some s)
    ∧ extract_dependency dep =
        { ref := attrib_get dep.attrib "ref", dependsOn := depends_on_of dep }
    ∧ extract_dependency (Element.mk "dependency" [("ref", "A")] none
        [Element.mk "dependency" [("ref", "B")] none [],
         Element.mk "dependency" [] none []]) =
        { ref := some "A", dependsOn := ["B"] } := by
  refine ⟨?_, ?_, rfl, by decide⟩
  · intro d hd s hs hne
    unfold depends_on_of
    exact List.mem_filterMap.mpr ⟨d, hd, by simp [truthy_opt, hs, hne]⟩
  · intro s hs
    obtain ⟨d, hd, hf⟩ := List.mem_filterMap.mp hs
    cases h : attrib_get d.attrib "ref" with
    | none =>
      rw [h] at hf
      simp [truthy_opt] at hf
    | some u =>
      rw [h] at hf
      by_cases hu : u = ""
      · simp [truthy_opt, hu] at hf
      · simp only [truthy_opt, if_neg hu, Option.some.injEq] at hf
        subst hf
        exact ⟨hu, d, hd, h⟩

/-- Witness for C5 at the specification's own example. -/
theorem depends_on_collects_nonempty_refs_witness :
    "B" ∈ depends_on_of (Element.mk "dependency" [("ref", "A")] none
      [Element.mk "dependency" [("ref", "B")] none [],
       Element.mk "dependency" [] none []]) := by
  have hmem : Element.mk "dependency" [("ref", "B")] none [] ∈
      find_children (Element.mk "dependency" [("ref", "A")] none
        [Element.mk "dependency" [("ref", "B")] none [],
         Element.mk "dependency" [] none []]) "dependency" := by
    rw [show find_children (Element.mk "dependency" [("ref", "A")] none
        [Element.mk "dependency" [("ref", "B")] none [],
         Element.mk "dependency" [] none []]) "dependency" =
      [Element.mk "dependency" [("ref", "B")] none [],
       Element.mk "dependency" [] none []] from rfl]
    exact List.mem_cons_self _ _
  exact (depends_on_collects_nonempty_refs _).1 _ hmem "B" rfl (by decide)

/-- C6: the dispatcher tries the CycloneDX interpreter exactly for a
(case-insensitive) `.xml` extension: on success it renders that
result, on either CycloneDX failure it silently proceeds to the SPDX
branch — so whatever that failure was, including the format mismatch
of a well-formed non-`bom` root, is never surfaced here; every other
extension goes straight to the SPDX branch. -/
theorem dispatcher_xml_fallback (fn : String) (len : Nat)
    (xml : Except String Element) (spdxResult : Except String SpdxViewModel)
    (hlen : ¬ len > MAX_UPLOAD_BYTES) :
    (lower_str (splitext_ext (normalize_filename fn)) = ".xml" →
      (∀ b : BomInfo, parse_cyclonedx_xml xml = Except.ok b →
        upload_sbom fn len xml spdxResult =
          Except.ok (RenderPage.cyclonedxReport b (normalize_filename fn)))
      ∧ (∀ e : CdxError, parse_cyclonedx_xml xml = Except.error e →
          upload_sbom fn len xml spdxResult =
            spdx_path (normalize_filename fn) spdxResult))
    ∧ (lower_str (splitext_ext (normalize_filename fn)) ≠ ".xml" →
        upload_sbom fn len xml spdxResult =
          spdx_path (normalize_filename fn) spdxResult) := by
  constructor
  · intro hx
    constructor
    · intro b hb
      simp [upload_sbom, hlen, hx, hb]
    · intro e he
      simp [upload_sbom, hlen, hx, he]
  · intro hx
    simp [upload_sbom, hlen, hx]

/-- Witness for C6: a well-formed `.xml` upload with a non-`bom` root
is not rejected; it lands on the SPDX branch. -/
theorem dispatcher_xml_fallback_witness :
    upload_sbom "a.xml" 0 (Except.ok non_bom_doc)
        (Except.ok demo_spdx_vm) =
      spdx_path "a.xml" (Except.ok demo_spdx_vm) :=
  ((dispatcher_xml_fallback "a.xml" 0 (Except.ok non_bom_doc)
      (Except.ok demo_spdx_vm) (by decide)).1 (by decide)).2
    CdxError.formatMismatch (by decide)

/-- C7: the handler answers `payloadTooLarge` exactly when the received
byte count exceeds 5 MiB; the check depends on nothing but that count
(in particular it precedes both parse attempts), one byte over the
limit is rejected, and exactly 5 MiB is not. -/
theorem size_guard (fn : String) (len : Nat)
    (xml : Except String Element) (spdxResult : Except String SpdxViewModel) :
    (len > 5 * 1024 * 1024 →
      upload_sbom fn len xml spdxResult =
        Except.error UploadError.payloadTooLarge)
    ∧ (upload_sbom fn len xml spdxResult =
        Except.error UploadError.payloadTooLarge → len > 5 * 1024 * 1024)
    ∧ (∀ (fn2 : String) (xml2 : Except String Element)
        (spdx2 : Except String SpdxViewModel), len > 5 * 1024 * 1024 →
        upload_sbom fn len xml spdxResult = upload_sbom fn2 len xml2 spdx2)
    ∧ upload_sbom fn (5 * 1024 * 1024 + 1) xml spdxResult =
        Except.error UploadError.payloadTooLarge
    ∧ upload_sbom fn (5 * 1024 * 1024) xml spdxResult ≠
        Except.error UploadError.payloadTooLarge := by
  have hmax : MAX_UPLOAD_BYTES = 5 * 1024 * 1024 := rfl
  refine ⟨?_, ?_, ?_, ?_, ?_⟩
  · intro h
    simp [upload_sbom, hmax, h]
  · intro h
    by_contra hlen
    exact upload_small_never_too_large fn len xml spdxResult
      (by rw [hmax]; exact hlen) h
  · intro fn2 xml2 spdx2 h
    simp [upload_sbom, hmax, h]
  · simp [upload_sbom, hmax]
  · exact upload_small_never_too_large fn (5 * 1024 * 1024) xml spdxResult
      (by rw [hmax]; exact lt_irrefl _)

/-- Witness for C7 one byte over the limit. -/
theorem size_guard_witness :
    upload_sbom "big.xml" (5 * 1024 * 1024 + 1) (Except.error "unread")
        (Except.error "unread") =
      Except.error UploadError.payloadTooLarge :=
  (size_guard "big.xml" (5 * 1024 * 1024 + 1) (Except.error "unread")
      (Except.error "unread")).1 (by decide)

/-- C8: the adapter's packages are the source packages mapped one for
one, and a package's `purl` is determined by the first external
reference alone — null on an empty reference list, null when the first
entry has no reference-type marker, the first entry's locator when it
does, and unchanged however the later entries are replaced. -/
theorem spdx_purl_first_reference_only (doc : SpdxDocument) :
    (spdx_doc_to_viewmodel doc).packages = doc.packages.map spdx_package_to_vm
    ∧ (∀ p : SpdxPackageSrc, p.external_references = [] →
        (spdx_package_to_vm p).purl = none)
    ∧ (∀ (p : SpdxPackageSrc) (r : ExternalRef) (rest : List ExternalRef),
        p.external_references = r :: rest → r.reference_type = none →
        (spdx_package_to_vm p).purl = none)
    ∧ (∀ (p : SpdxPackageSrc) (r : ExternalRef) (rest : List ExternalRef)
        (k : RefKind), p.external_references = r :: rest →
        r.reference_type = some k →
        (spdx_package_to_vm p).purl = some r.locator)
    ∧ (∀ (p : SpdxPackageSrc) (r : ExternalRef)
        (rest rest2 : List ExternalRef), p.external_references = r :: rest →
        (spdx_package_to_vm p).purl =
          (spdx_package_to_vm
            { p with external_references := r :: rest2 }).purl) := by
  refine ⟨rfl, ?_, ?_, ?_, ?_⟩
  · intro p h
    simp [spdx_package_to_vm, h]
  · intro p r rest h hr
    simp [spdx_package_to_vm, h, hr]
  · intro p r rest k h hr
    simp [spdx_package_to_vm, h, hr]
  · intro p r rest rest2 h
    cases hr : r.reference_type <;> simp [spdx_package_to_vm, h, hr]

/-- Witness for C8: only the first reference's locator is used even
when a later reference also carries a package URL. -/
theorem spdx_purl_first_reference_only_witness :
    (spdx_package_to_vm
      { spdx_id := "SPDXRef-1", name := "libx", version := some "2.0",
        supplier := none, download_location := none,
        license_declared := none, license_concluded := none,
        external_references :=
          [{ locator := "pkg:pypi/libx@2.0",
             reference_type := some { category := "purl" } },
           { locator := "pkg:pypi/other@9.9",
             reference_type := some { category := "purl" } }] }).purl =
      some "pkg:pypi/libx@2.0" :=
  (spdx_purl_first_reference_only
      { spdx_version := "SPDX-2.3", data_license := "CC0-1.0",
        document_namespace := "https://example.test/doc",
        creation_info := none, packages := [] }).2.2.2.1
    { spdx_id := "SPDXRef-1", name := "libx", version := some "2.0",
      supplier := none, download_location := none,
      license_declared := none, license_concluded := none,
      external_references :=
        [{ locator := "pkg:pypi/libx@2.0",
           reference_type := some { category := "purl" } },
         { locator := "pkg:pypi/other@9.9",
           reference_type := some { category := "purl" } }] }
    { locator := "pkg:pypi/libx@2.0",
      reference_type := some { category := "purl" } }
    [{ locator := "pkg:pypi/other@9.9",
       reference_type := some { category := "purl" } }]
    { category := "purl" } rfl rfl

/-- C10: a `<dependency>` element without a `ref` attribute of its own
still yields an edge — with a null `ref` and the usual child
collection; no element of the dependency list is skipped (the output
has one edge per `<dependency>` child), and the parsed document's edge
list is exactly this extraction. -/
theorem refless_dependency_still_emitted (deps d : Element)
    (hd : d ∈ find_children deps "dependency")
    (hr : attrib_get d.attrib "ref" = none) :
    ({ ref := none, dependsOn := depends_on_of d } : DependencyEdge) ∈
      extract_deps deps
    ∧ (extract_deps deps).length = (find_children deps "dependency").length
    ∧ (∀ root : Element, strip_ns root.tag = "bom" →
        find_child root "dependencies" = some deps →
        ∃ b : BomInfo, parse_cyclonedx_xml (Except.ok root) = Except.ok b ∧
          b.dependencies = extract_deps deps) := by
  refine ⟨?_, by simp [extract_deps], ?_⟩
  · have he : extract_dependency d =
        { ref := none, dependsOn := depends_on_of d } := by
      simp [extract_dependency, hr]
    exact he ▸ List.mem_map_of_mem extract_dependency hd
  · intro root hroot hdeps
    refine ⟨{ serialNumber := attrib_get root.attrib "serialNumber",
              version := attrib_get root.attrib "version",
              metadata := (find_child root "metadata").map extract_metadata,
              components :=
                match find_child root "components" with
                | some cs => (find_children cs "component").map extract_component
                | none => [],
              dependencies :=
                match find_child root "dependencies" with
                | some ds => extract_deps ds
                | none => [] }, ?_, ?_⟩
    · simp only [parse_cyclonedx_xml]
      rw [if_pos hroot]
    · simp [hdeps]

/-- Witness for C10 at a concrete refless dependency element. -/
theorem refless_dependency_still_emitted_witness :
    ({ ref := none, dependsOn := ["B"] } : DependencyEdge) ∈
      extract_deps (Element.mk "dependencies" [] none
        [Element.mk "dependency" [] none
          [Element.mk "dependency" [("ref", "B")] none []]]) := by
  have hmem : Element.mk "dependency" [] none
        [Element.mk "dependency" [("ref", "B")] none []] ∈
      find_children (Element.mk "dependencies" [] none
        [Element.mk "dependency" [] none
          [Element.mk "dependency" [("ref", "B")] none []]]) "dependency" := by
    rw [show find_children (Element.mk "dependencies" [] none
        [Element.mk "dependency" [] none
          [Element.mk "dependency" [("ref", "B")] none []]]) "dependency" =
      [Element.mk "dependency" [] none
        [Element.mk "dependency" [("ref", "B")] none []]] from rfl]
    exact List.mem_cons_self _ _
  have h := (refless_dependency_still_emitted _ _ hmem rfl).1
  rw [show depends_on_of (Element.mk "dependency" [] none
      [Element.mk "dependency" [("ref", "B")] none []]) = ["B"] from rfl] at h
  exact h
